import Mathlib

/-!
Verification of the `TwoCaptchaClient` class from
`src/two_captcha_client.js` (node_ru_captcha).

The client is embedded shallowly: every method becomes a Lean function
over an explicit effect state (`Trace`) that records outbound HTTP
requests, console warnings and sleeps, and returns `Except String α`
where a JS `throw new Error(message)` becomes `.error message`.
External collaborators (`HTTPRequest`, the filesystem) are given as an
environment `Env`; the known-error table from `src/constants.js`
(absent from the sources) is a parameter `errors : String → Option String`
with a spec-modelled instance `specErrors`.
JS option objects are modelled as association lists of `JsVal` so that
missing keys, `undefined` values, property spread and `delete` behave
as in JavaScript.
-/

set_option autoImplicit false

namespace RuCaptcha

instance {ε α : Type} [DecidableEq ε] [DecidableEq α] :
    DecidableEq (Except ε α) := fun x y =>
  match x, y with
  | .error e, .error f =>
      match decEq e f with
      | isTrue h => isTrue (h ▸ rfl)
      | isFalse h => isFalse (fun hc => h (Except.error.inj hc))
  | .error _, .ok _ => isFalse Except.noConfusion
  | .ok _, .error _ => isFalse Except.noConfusion
  | .ok a, .ok b =>
      match decEq a b with
      | isTrue h => isTrue (h ▸ rfl)
      | isFalse h => isFalse (fun hc => h (Except.ok.inj hc))

/-- A JavaScript value as far as this client manipulates them:
strings, numbers, Buffers (byte lists), booleans and `undefined`. -/
inductive JsVal where
  | str (s : String)
  | num (n : Nat)
  | buf (bytes : List Nat)
  | bool (b : Bool)
  | undefined
  deriving Repr, DecidableEq

/-- JavaScript truthiness for the values above: `''`, `0`, `false` and
`undefined` are falsy; a Buffer object is always truthy. -/
def JsVal.truthy : JsVal → Bool
  | .str s => s ≠ ""
  | .num n => n ≠ 0
  | .buf _ => true
  | .bool b => b
  | .undefined => false

/-- A JS object: keys in insertion order, each key at most once. -/
def Obj : Type := List (String × JsVal)

instance : DecidableEq Obj := by unfold Obj; infer_instance

instance : Repr Obj := by unfold Obj; infer_instance

/-- Property read `o.k`: `undefined` when the key is absent. -/
def objGet (o : Obj) (k : String) : JsVal :=
  match o with
  | [] => .undefined
  | p :: rest => if p.1 = k then p.2 else objGet rest k

/-- Whether the object has the key as an own property (even if the
stored value is `undefined`). -/
def objHas (o : Obj) (k : String) : Bool :=
  match o with
  | [] => false
  | p :: rest => p.1 = k || objHas rest k

/-- Property write `o.k = v`: update in place, or append a new key. -/
def objSet (o : Obj) (k : String) (v : JsVal) : Obj :=
  match o with
  | [] => [(k, v)]
  | p :: rest => if p.1 = k then (k, v) :: rest else p :: objSet rest k v

/-- `delete o.k`. -/
def objDelete (o : Obj) (k : String) : Obj :=
  match o with
  | [] => []
  | p :: rest => if p.1 = k then objDelete rest k else p :: objDelete rest k

/-- Object spread `\x7b...a, ...b\x7d`: every own property of `b`
(`undefined`-valued ones included) overrides or extends `a`. -/
def objSpread (a b : Obj) : Obj :=
  b.foldl (fun acc p => objSet acc p.1 p.2) a

/-- An outbound HTTP request as handed to the `HTTPRequest` collaborator. -/
structure Request where
  url : String
  method : String
  timeout : Nat
  payload : Obj
  deriving Repr, DecidableEq

/-- The side effects a run accumulates: outbound requests, console
warnings, and the durations of the sleeps performed. -/
structure Trace where
  requests : List Request := []
  warnings : List String := []
  sleeps : List Nat := []
  deriving Repr, DecidableEq

/-- The effect monad of the embedding: state = `Trace`, exceptions =
thrown `Error` messages. -/
def M (α : Type) : Type := Trace → Trace × Except String α

def M.pure {α : Type} (a : α) : M α := fun t => (t, .ok a)

def M.bind {α β : Type} (x : M α) (f : α → M β) : M β := fun t =>
  match x t with
  | (t', .ok a) => f a t'
  | (t', .error e) => (t', .error e)

instance : Monad M where
  pure := M.pure
  bind := M.bind

/-- `console.warn(message)`. -/
def warnM (message : String) : M Unit := fun t =>
  ({ t with warnings := t.warnings ++ [message] }, .ok ())

/-- `throw new Error(message)`. -/
def throwM {α : Type} (message : String) : M α := fun t => (t, .error message)

/-- Record one outbound HTTP request. -/
def recordRequest (r : Request) : M Unit := fun t =>
  ({ t with requests := t.requests ++ [r] }, .ok ())

/-- `_sleep(ms)`: modelled as recording the duration slept. -/
def sleepM (ms : Nat) : M Unit := fun t =>
  ({ t with sleeps := t.sleeps ++ [ms] }, .ok ())

@[simp] theorem M_bind_apply {α β : Type} (x : M α) (f : α → M β) (t : Trace) :
    (x >>= f) t = match x t with
      | (t', .ok a) => f a t'
      | (t', .error e) => (t', .error e) := rfl

@[simp] theorem M_pure_apply {α : Type} (a : α) (t : Trace) :
    (Pure.pure (f := M) a) t = (t, .ok a) := rfl

@[simp] theorem warnM_apply (m : String) (t : Trace) :
    warnM m t = ({ t with warnings := t.warnings ++ [m] }, .ok ()) := rfl

@[simp] theorem throwM_apply {α : Type} (m : String) (t : Trace) :
    (throwM (α := α) m) t = (t, .error m) := rfl

@[simp] theorem recordRequest_apply (r : Request) (t : Trace) :
    recordRequest r t = ({ t with requests := t.requests ++ [r] }, .ok ()) := rfl

@[simp] theorem sleepM_apply (ms : Nat) (t : Trace) :
    sleepM ms t = ({ t with sleeps := t.sleeps ++ [ms] }, .ok ()) := rfl

/-- The client configuration held by a `TwoCaptchaClient` instance:
API key (a JS value, since the code guards on `typeof key`), timeout in
ms, polling interval in ms, and the throw-vs-warn flag. -/
structure Client where
  key : JsVal
  timeout : Nat := 60000
  polling : Nat := 5000
  throwErrors : Bool := false
  deriving Repr, DecidableEq

/-- The external collaborators: the HTTP transport (response body for a
request), the filesystem reader and the URL fetcher, both yielding raw
bytes. -/
structure Env where
  respond : Request → String
  readFile : String → List Nat
  fetchUrl : String → List Nat

/-- Modelled from the spec: the `Captcha` record of `src/captcha.js`
(absent from the sources). Per the spec's Solution data model it holds
the task id, the raw response payload, and the extracted solution text;
a fresh instance has every field `undefined`. -/
structure Captcha where
  id : Option String := none
  text : Option String := none
  apiResponse : Option String := none
  deriving Repr, DecidableEq

/-- Truthiness of a possibly-undefined JS string (`undefined` and `''`
are falsy). -/
def optTruthy : Option String → Bool
  | none => false
  | some s => s ≠ ""

/-- `s.split('|')` on character lists: the `|`-delimited fields in
order, with `[[]]` for the empty string, as in JavaScript. -/
def splitFields : List Char → List (List Char)
  | [] => [[]]
  | ch :: rest =>
      if ch = '|' then [] :: splitFields rest
      else
        match splitFields rest with
        | f :: fs => (ch :: f) :: fs
        | [] => [[ch]]

/-- `s.split('|', 2)[1]`: the second `|`-delimited field of `s`, or
`undefined` when `s` contains no `|`. -/
def splitSecond (s : String) : Option String :=
  match splitFields s.toList with
  | _ :: second :: _ => some (String.mk second)
  | _ => none

/-- `haystack.includes(needle)` on character lists. -/
def listContains (haystack needle : List Char) : Bool :=
  match haystack with
  | [] => needle.isEmpty
  | _ :: rest => needle.isPrefixOf haystack || listContains rest needle

/-- `body.includes('ERROR')` and friends: JS substring test. -/
def containsSub (haystack needle : String) : Bool :=
  listContains haystack.toList needle.toList

/-- Replace the first occurrence of `tag` in a character list, as JS
`String.prototype.replace` does with a string pattern. -/
def replaceFirst (tag repl : List Char) : List Char → List Char
  | [] => []
  | ch :: rest =>
      if tag.isPrefixOf (ch :: rest) then repl ++ (ch :: rest).drop tag.length
      else ch :: replaceFirst tag repl rest

/-- `s.replace(pat, repl)` with a string pattern: first occurrence only. -/
def jsReplace (s pat repl : String) : String :=
  String.mk (replaceFirst pat.toList repl.toList s.toList)

/-- The base64 alphabet. -/
def base64Chars : List Char :=
  "ABCDEFGHIJKLMNOPQRSTUVWXYZabcdefghijklmnopqrstuvwxyz0123456789+/".toList

/-- Character for one 6-bit group. -/
def b64char (n : Nat) : Char := base64Chars.getD (n % 64) 'A'

/-- `Buffer.toString('base64')`: standard RFC 4648 encoding with `=`
padding, over a byte list. -/
def base64Encode : List Nat → String
  | [] => ""
  | [a] =>
      let a := a % 256
      String.mk [b64char (a / 4), b64char (a % 4 * 16), '=', '=']
  | [a, b] =>
      let a := a % 256
      let b := b % 256
      String.mk [b64char (a / 4), b64char (a % 4 * 16 + b / 16),
        b64char (b % 16 * 4), '=']
  | a :: b :: c :: rest =>
      let a' := a % 256
      let b' := b % 256
      let c' := c % 256
      String.mk [b64char (a' / 4), b64char (a' % 4 * 16 + b' / 16),
        b64char (b' % 16 * 4 + c' / 64), b64char (c' % 64)] ++ base64Encode rest

/-- Modelled from the spec: the known remote error-code table of
`src/constants.js` (absent from the sources). The spec's taxonomy only
requires that the table map the "not solved yet" marker to the exact
message `_throwError` treats as non-fatal. -/
def specErrors : String → Option String := fun body =>
  if body = "CAPCHA_NOT_READY" then some "Your captcha is not solved yet."
  else none

/-- The message `_throwError` never raises on. -/
def notSolvedMsg : String := "Your captcha is not solved yet."

/-- `_throwError(message)`: returns `false` silently for the
not-solved-yet message; otherwise throws when `throwErrors` is set and
warns (returning `false`) when it is not. -/
def throwErrorM (c : Client) (message : String) : M Bool :=
  if message = notSolvedMsg then pure false
  else if c.throwErrors then throwM message
  else do
    warnM message
    pure false

/-- `_validateResponse(body)`: look the body up in the known-error
table; otherwise an empty body or one containing `ERROR` is an unknown
2Captcha error; anything else is valid (`true`). -/
def validateResponse (c : Client) (errors : String → Option String)
    (body : String) : M Bool :=
  match errors body with
  | some message => throwErrorM c message
  | none =>
      if body = "" || containsSub body "ERROR" then
        throwErrorM c ("Unknown 2Captcha error: " ++ body)
      else
        pure true

/-- The URL template of the remote endpoint. -/
def baseUrl : String := "https://rucaptcha.com/<action>.php"

/-- The request `_request` builds: URL from the action template, the
caller payload with the API key and the fixed `soft_id` affiliate field
injected. -/
def builtRequest (c : Client) (action method : String) (payload : Obj) :
    Request :=
  { url := jsReplace baseUrl "<action>" action
    method := method
    timeout := c.timeout
    payload := objSet (objSet payload "key" c.key) "soft_id" (.num 2386) }

/-- `_request(action, method, payload)`: build the URL, inject the API
key and the fixed `soft_id` affiliate field, perform the call, validate
the response and return the raw body. -/
def request (c : Client) (env : Env) (errors : String → Option String)
    (action method : String) (payload : Obj) : M String := do
  let r := builtRequest c action method payload
  recordRequest r
  let res := env.respond r
  let _ ← validateResponse c errors res
  pure res

/-- A possibly-undefined JS string as a `JsVal`. -/
def jsOfOptStr : Option String → JsVal
  | some s => .str s
  | none => .undefined

/-- `captcha(captchaId)`: one poll request for the given id; the result
captcha carries the id, the raw body, and the second `|`-field as text. -/
def captcha (c : Client) (env : Env) (errors : String → Option String)
    (captchaId : Option String) : M Captcha := do
  let res ← request c env errors "res" "get"
    [("id", jsOfOptStr captchaId), ("action", .str "get")]
  pure { id := captchaId, apiResponse := some res, text := splitSecond res }

/-- `_loadCaptcha(options)`: resolve the image source to a base64 value.
With no source present, `_throwError` is invoked and (in the warn
configuration) the function falls through returning `undefined`. -/
def loadCaptcha (c : Client) (env : Env) (options : Obj) : M JsVal :=
  if (objGet options "base64").truthy then
    pure (objGet options "base64")
  else if (objGet options "buffer").truthy then
    pure (.str (base64Encode (match objGet options "buffer" with
      | .buf bytes => bytes
      | _ => [])))
  else if (objGet options "path").truthy then
    pure (.str (base64Encode (env.readFile (match objGet options "path" with
      | .str p => p
      | _ => ""))))
  else if (objGet options "url").truthy then
    pure (.str (base64Encode (env.fetchUrl (match objGet options "url" with
      | .str u => u
      | _ => ""))))
  else do
    let _ ← throwErrorM c "No image data received"
    pure .undefined

/-- The payload `_upload` builds: `body` from the base64 value, `method`
defaulting to `base64`, the remaining options spread on top, the
image-source fields deleted. -/
def uploadArgs (options : Obj) : Obj :=
  let args : Obj :=
    if (objGet options "base64").truthy then [("body", objGet options "base64")]
    else []
  let args := objSet args "method"
    (if (objGet options "method").truthy then objGet options "method"
     else .str "base64")
  let args := objSpread args options
  objDelete (objDelete (objDelete (objDelete args "base64") "buffer") "path")
    "url"

/-- `_upload(options)`: POST the built payload to `in`, re-validate the
body, and wrap its second `|`-field as the captcha id. -/
def upload (c : Client) (env : Env) (errors : String → Option String)
    (options : Obj) : M Captcha := do
  let res ← request c env errors "in" "post" (uploadArgs options)
  let _ ← validateResponse c errors res
  pure { id := splitSecond res }

/-- Outcome of running one of the JS polling functions under a fuel
bound: `done v` is the JS return value (`none` = `undefined`, the
timeout return), `fuelOut` is the modelling artifact for a loop that
did not finish within the given number of iterations. -/
inductive RunRes (α : Type) where
  | done (v : α) : RunRes α
  | fuelOut : RunRes α
  deriving Repr, DecidableEq

/-- The `while (!decodedCaptcha.text)` polling loop shared by all four
decode functions: sleep `sleepMs`, then fail with `Captcha timeout`
once the elapsed time exceeds the client timeout, otherwise poll again.
The wall clock is modelled as advancing by exactly the slept duration
each iteration; `fuel` bounds the number of iterations. -/
def pollLoop (c : Client) (env : Env) (errors : String → Option String)
    (sleepMs : Nat) : Nat → Nat → Captcha → M (RunRes (Option Captcha))
  | fuel, elapsed, cap =>
    if optTruthy cap.text then pure (.done (some cap))
    else
      match fuel with
      | 0 => pure .fuelOut
      | fuel + 1 => do
          sleepM sleepMs
          let elapsed := elapsed + sleepMs
          if c.timeout < elapsed then
            let _ ← throwErrorM c "Captcha timeout"
            pure (.done none)
          else do
            let cap ← captcha c env errors cap.id
            pollLoop c env errors sleepMs fuel elapsed cap

/-- `decode(options)`: guard the key type, load the image, upload it
with the base64 field overridden, then poll with interval `polling`. -/
def decode (c : Client) (env : Env) (errors : String → Option String)
    (options : Obj) (fuel : Nat) : M (RunRes (Option Captcha)) := do
  let _ ← match c.key with
    | .str _ => pure false
    | _ => throwErrorM c "2Captcha key must be a string"
  let base64 ← loadCaptcha c env options
  let cap ← upload c env errors (objSet options "base64" base64)
  pollLoop c env errors c.polling fuel 0 cap

/-- `decodeRecaptchaV2(options)`: reject empty `googlekey`/`pageurl`,
upload with the `userrecaptcha` method tag and 0/1 flags, then poll
sleeping at least 10 ms per iteration. -/
def decodeRecaptchaV2 (c : Client) (env : Env)
    (errors : String → Option String) (options : Obj) (fuel : Nat) :
    M (RunRes (Option Captcha)) := do
  let _ ← if objGet options "googlekey" = .str "" then
      throwErrorM c "Missing googlekey parameter"
    else pure false
  let _ ← if objGet options "pageurl" = .str "" then
      throwErrorM c "Missing pageurl parameter"
    else pure false
  let upload_options : Obj :=
    [("method", .str "userrecaptcha"),
     ("googlekey", objGet options "googlekey"),
     ("pageurl", objGet options "pageurl"),
     ("invisible", .num (if (objGet options "invisible").truthy then 1 else 0)),
     ("enterprise", .num (if (objGet options "enterprise").truthy then 1 else 0))]
  let cap ← upload c env errors upload_options
  pollLoop c env errors (max c.polling 10) fuel 0 cap

/-- `decodeRecaptchaV3(options)`: like v2, with `version: 'v3'` and the
action string defaulting to the empty string. -/
def decodeRecaptchaV3 (c : Client) (env : Env)
    (errors : String → Option String) (options : Obj) (fuel : Nat) :
    M (RunRes (Option Captcha)) := do
  let _ ← if objGet options "googlekey" = .str "" then
      throwErrorM c "Missing googlekey parameter"
    else pure false
  let _ ← if objGet options "pageurl" = .str "" then
      throwErrorM c "Missing pageurl parameter"
    else pure false
  let upload_options : Obj :=
    [("method", .str "userrecaptcha"),
     ("googlekey", objGet options "googlekey"),
     ("pageurl", objGet options "pageurl"),
     ("version", .str "v3"),
     ("action", if (objGet options "action").truthy then objGet options "action"
       else .str ""),
     ("enterprise", .num (if (objGet options "enterprise").truthy then 1 else 0))]
  let cap ← upload c env errors upload_options
  pollLoop c env errors (max c.polling 10) fuel 0 cap

/-- `decodeHCaptcha(options)`: reject empty `sitekey`/`pageurl`, upload
with the `hcaptcha` method tag, then poll sleeping at least 10 ms. -/
def decodeHCaptcha (c : Client) (env : Env)
    (errors : String → Option String) (options : Obj) (fuel : Nat) :
    M (RunRes (Option Captcha)) := do
  let _ ← if objGet options "sitekey" = .str "" then
      throwErrorM c "Missing sitekey parameter"
    else pure false
  let _ ← if objGet options "pageurl" = .str "" then
      throwErrorM c "Missing pageurl parameter"
    else pure false
  let upload_options : Obj :=
    [("method", .str "hcaptcha"),
     ("sitekey", objGet options "sitekey"),
     ("pageurl", objGet options "pageurl"),
     ("invisible", .num (if (objGet options "invisible").truthy then 1 else 0))]
  let cap ← upload c env errors upload_options
  pollLoop c env errors (max c.polling 10) fuel 0 cap

/-- `report(captchaId, bad)`: one `res` request with the report action;
true exactly when the body is the literal `OK_REPORT_RECORDED`. -/
def report (c : Client) (env : Env) (errors : String → Option String)
    (captchaId : String) (bad : Bool := true) : M Bool := do
  let res ← request c env errors "res" "get"
    [("action", .str (if bad then "reportbad" else "reportgood")),
     ("id", .str captchaId)]
  pure (res = "OK_REPORT_RECORDED")

/-- An environment whose transport always answers with the same body;
file and URL sources read as empty. -/
def constEnv (body : String) : Env :=
  { respond := fun _ => body, readFile := fun _ => [], fetchUrl := fun _ => [] }

/-- The spec's classification taxonomy for response bodies. -/
inductive Classification where
  | remoteError (code message : String)
  | unknownRemoteError (body : String)
  | valid
  deriving Repr, DecidableEq

/-- Classification written from the spec's words: a body matching a
known remote error code is that remote error; an empty body, or one
containing the literal substring `ERROR` without matching a known
code, is an unknown remote error carrying the body; anything else is
valid. -/
def classifySpec (errors : String → Option String) (body : String) :
    Classification :=
  match errors body with
  | some message => .remoteError body message
  | none =>
      if body = "" || containsSub body "ERROR" then .unknownRemoteError body
      else .valid

/-- The message `_validateResponse` hands to `_throwError` for a body
it does not accept. -/
def errorMessage (errors : String → Option String) (body : String) : String :=
  match errors body with
  | some message => message
  | none => "Unknown 2Captcha error: " ++ body

/-- Whether a body is accepted unchanged by `_validateResponse`. -/
def validBody (errors : String → Option String) (body : String) : Prop :=
  errors body = none ∧ body ≠ "" ∧ containsSub body "ERROR" = false

instance (errors : String → Option String) (body : String) :
    Decidable (validBody errors body) := by
  unfold validBody; infer_instance

/-- A body on which `_validateResponse` returns without throwing or
warning in every configuration: a valid body, or one mapped to the
not-solved-yet message. -/
def quietBody (errors : String → Option String) (body : String) : Prop :=
  validBody errors body ∨ errors body = some notSolvedMsg

instance (errors : String → Option String) (body : String) :
    Decidable (quietBody errors body) := by
  unfold quietBody; infer_instance

/-- The environment used for the concrete end-to-end decode run: the
submission gets task id `123`, every poll answers `OK|ABCD1234`. -/
def solvedEnv : Env :=
  { respond := fun r =>
      if r.url = "https://rucaptcha.com/in.php" then "OK|123" else "OK|ABCD1234"
    readFile := fun _ => []
    fetchUrl := fun _ => [] }

/-- The environment used for the concrete byte-source witness: the
transport answers a neutral body and both byte loaders yield the bytes
1, 2, 3. -/
def bytesEnv : Env :=
  { respond := fun _ => "x"
    readFile := fun _ => [1, 2, 3]
    fetchUrl := fun _ => [1, 2, 3] }

/-- A client with a string key and the default configuration except
that errors are thrown. -/
def throwingClient : Client :=
  { key := .str "k", throwErrors := true }

/-- A client with a string key and the default warn-only configuration. -/
def warningClient : Client :=
  { key := .str "k", throwErrors := false }

/-- A client with a polling interval of 5 ms, below the 10 ms floor of
the interactive challenge loops. -/
def slowClient : Client :=
  { key := .str "k", timeout := 60000, polling := 5, throwErrors := false }

/-- A throwing client with a 50 ms timeout and the default 5000 ms
polling interval. -/
def shortTimeoutThrow : Client :=
  { key := .str "k", timeout := 50, polling := 5000, throwErrors := true }

/-- A warn-only client with a 50 ms timeout and the default 5000 ms
polling interval. -/
def shortTimeoutWarn : Client :=
  { key := .str "k", timeout := 50, polling := 5000, throwErrors := false }

theorem throwErrorM_run (c : Client) (m : String) (t : Trace) :
    throwErrorM c m t = (t, .ok false) ∨
      throwErrorM c m t = ({ t with warnings := t.warnings ++ [m] }, .ok false) ∨
      throwErrorM c m t = (t, .error m) := by
  unfold throwErrorM
  by_cases h1 : m = notSolvedMsg
  · simp [h1]
  · by_cases h2 : c.throwErrors <;> simp [h1, h2, warnM, throwM, M.bind, M.pure,
      Bind.bind, Pure.pure]

theorem throwErrorM_not_solved (c : Client) (t : Trace) :
    throwErrorM c notSolvedMsg t = (t, .ok false) := by
  unfold throwErrorM
  simp

theorem throwErrorM_throw (c : Client) (m : String) (t : Trace)
    (hm : m ≠ notSolvedMsg) (hc : c.throwErrors = true) :
    throwErrorM c m t = (t, .error m) := by
  unfold throwErrorM
  simp [hm, hc, throwM]

theorem throwErrorM_warn (c : Client) (m : String) (t : Trace)
    (hm : m ≠ notSolvedMsg) (hc : c.throwErrors = false) :
    throwErrorM c m t = ({ t with warnings := t.warnings ++ [m] }, .ok false) := by
  unfold throwErrorM
  simp [hm, hc, warnM, M.bind, M.pure, Bind.bind, Pure.pure]

theorem validateResponse_valid (c : Client) (errors : String → Option String)
    (body : String) (h : validBody errors body) (t : Trace) :
    validateResponse c errors body t = (t, .ok true) := by
  obtain ⟨h1, h2, h3⟩ := h
  unfold validateResponse
  simp [h1, h2, h3]

theorem validateResponse_invalid (c : Client) (errors : String → Option String)
    (body : String) (h : ¬ validBody errors body) (t : Trace) :
    validateResponse c errors body t = throwErrorM c (errorMessage errors body) t := by
  unfold validateResponse errorMessage
  cases he : errors body with
  | some m => simp
  | none =>
      have : body = "" ∨ containsSub body "ERROR" = true := by
        by_contra hcon
        push_neg at hcon
        exact h ⟨he, hcon.1, Bool.eq_false_iff.mpr hcon.2⟩
      rcases this with h4 | h4 <;> simp [h4]

theorem validateResponse_quiet (c : Client) (errors : String → Option String)
    (body : String) (h : quietBody errors body) (t : Trace) :
    ∃ b, validateResponse c errors body t = (t, .ok b) := by
  rcases h with h | h
  · exact ⟨true, validateResponse_valid c errors body h t⟩
  · refine ⟨false, ?_⟩
    unfold validateResponse
    rw [h]
    exact throwErrorM_not_solved c t

theorem request_run (c : Client) (env : Env) (errors : String → Option String)
    (action method : String) (payload : Obj) (t : Trace) :
    request c env errors action method payload t =
      (match validateResponse c errors
          (env.respond (builtRequest c action method payload))
          { t with requests := t.requests ++ [builtRequest c action method payload] } with
        | (t', .ok _) =>
            (t', .ok (env.respond (builtRequest c action method payload)))
        | (t', .error e) => (t', .error e)) := by
  unfold request
  simp only [M_bind_apply, recordRequest_apply]
  rcases hv : validateResponse c errors
    (env.respond (builtRequest c action method payload))
    { t with requests := t.requests ++ [builtRequest c action method payload] }
    with ⟨t', r⟩
  cases r <;> rfl

theorem request_quiet (c : Client) (env : Env) (errors : String → Option String)
    (action method : String) (payload : Obj) (t : Trace)
    (h : quietBody errors (env.respond (builtRequest c action method payload))) :
    request c env errors action method payload t =
      ({ t with requests := t.requests ++ [builtRequest c action method payload] },
        .ok (env.respond (builtRequest c action method payload))) := by
  rw [request_run]
  obtain ⟨b, hb⟩ := validateResponse_quiet c errors
    (env.respond (builtRequest c action method payload)) h
    { t with requests := t.requests ++ [builtRequest c action method payload] }
  rw [hb]

theorem request_invalid_throw (c : Client) (env : Env)
    (errors : String → Option String) (action method : String) (payload : Obj)
    (t : Trace)
    (hq : ¬ validBody errors (env.respond (builtRequest c action method payload)))
    (hm : errorMessage errors (env.respond (builtRequest c action method payload))
      ≠ notSolvedMsg)
    (hc : c.throwErrors = true) :
    request c env errors action method payload t =
      ({ t with requests := t.requests ++ [builtRequest c action method payload] },
        .error (errorMessage errors
          (env.respond (builtRequest c action method payload)))) := by
  rw [request_run, validateResponse_invalid c errors _ hq,
    throwErrorM_throw c _ _ hm hc]

theorem request_invalid_warn (c : Client) (env : Env)
    (errors : String → Option String) (action method : String) (payload : Obj)
    (t : Trace)
    (hq : ¬ validBody errors (env.respond (builtRequest c action method payload)))
    (hm : errorMessage errors (env.respond (builtRequest c action method payload))
      ≠ notSolvedMsg)
    (hc : c.throwErrors = false) :
    request c env errors action method payload t =
      ({ t with
          requests := t.requests ++ [builtRequest c action method payload],
          warnings := t.warnings ++ [errorMessage errors
            (env.respond (builtRequest c action method payload))] },
        .ok (env.respond (builtRequest c action method payload))) := by
  rw [request_run, validateResponse_invalid c errors _ hq,
    throwErrorM_warn c _ _ hm hc]

theorem captcha_quiet (c : Client) (env : Env) (errors : String → Option String)
    (id : Option String) (t : Trace)
    (h : quietBody errors (env.respond (builtRequest c "res" "get"
      [("id", jsOfOptStr id), ("action", .str "get")]))) :
    captcha c env errors id t =
      ({ t with requests := t.requests ++ [builtRequest c "res" "get"
          [("id", jsOfOptStr id), ("action", .str "get")]] },
        .ok { id := id,
              apiResponse := some (env.respond (builtRequest c "res" "get"
                [("id", jsOfOptStr id), ("action", .str "get")])),
              text := splitSecond (env.respond (builtRequest c "res" "get"
                [("id", jsOfOptStr id), ("action", .str "get")])) }) := by
  unfold captcha
  rw [M_bind_apply, request_quiet c env errors "res" "get" _ t h]
  rfl

theorem upload_quiet (c : Client) (env : Env) (errors : String → Option String)
    (options : Obj) (t : Trace)
    (h : quietBody errors (env.respond (builtRequest c "in" "post"
      (uploadArgs options)))) :
    upload c env errors options t =
      ({ t with requests := t.requests ++ [builtRequest c "in" "post"
          (uploadArgs options)] },
        .ok { id := splitSecond (env.respond (builtRequest c "in" "post"
                (uploadArgs options))),
              text := none, apiResponse := none }) := by
  obtain ⟨b, hb⟩ := validateResponse_quiet c errors
    (env.respond (builtRequest c "in" "post" (uploadArgs options))) h
    { t with requests := t.requests ++ [builtRequest c "in" "post"
        (uploadArgs options)] }
  unfold upload
  simp only [M_bind_apply, request_quiet c env errors "in" "post" (uploadArgs options) t h,
    hb]
  rfl

/-- C9: the response validator shared by submit, poll and report
classifies every body exactly by the spec's taxonomy: a body matching a
known remote error code is that remote error (and `_throwError` gets
its message); an empty body or one containing the literal substring
`ERROR` without matching a known code is an unknown remote error
carrying the body; anything else is valid and passes through unchanged. -/
theorem C9_validator_taxonomy (c : Client) (errors : String → Option String)
    (body : String) :
    (validateResponse c errors body =
      match classifySpec errors body with
      | .remoteError _ message => throwErrorM c message
      | .unknownRemoteError b => throwErrorM c ("Unknown 2Captcha error: " ++ b)
      | .valid => pure true) ∧
    (∀ code message, classifySpec errors body = .remoteError code message ↔
      code = body ∧ errors body = some message) ∧
    (∀ b, classifySpec errors body = .unknownRemoteError b ↔
      b = body ∧ errors body = none ∧
        (body = "" ∨ containsSub body "ERROR" = true)) ∧
    (classifySpec errors body = .valid ↔ validBody errors body) := by
  unfold validateResponse classifySpec validBody
  cases he : errors body with
  | some m =>
      refine ⟨rfl, ?_, ?_, ?_⟩
      · intro code message
        constructor
        · intro hcl
          cases hcl
          exact ⟨rfl, rfl⟩
        · rintro ⟨rfl, hm⟩
          cases hm
          rfl
      · intro b
        constructor
        · intro hcl
          cases hcl
        · rintro ⟨_, hnone, _⟩
          cases hnone
      · constructor
        · intro hcl
          cases hcl
        · rintro ⟨hnone, _, _⟩
          cases hnone
  | none =>
      by_cases hcond : body = "" ∨ containsSub body "ERROR" = true
      · have hb : (body = "" || containsSub body "ERROR") = true := by
          rcases hcond with h1 | h1 <;> simp [h1]
        refine ⟨by simp [hb], ?_, ?_, ?_⟩
        · intro code message
          constructor
          · intro hcl
            rw [if_pos hb] at hcl
            cases hcl
          · rintro ⟨_, hsome⟩
            cases hsome
        · intro b
          rw [if_pos hb]
          constructor
          · intro hcl
            cases hcl
            exact ⟨rfl, rfl, hcond⟩
          · rintro ⟨rfl, _, _⟩
            rfl
        · rw [if_pos hb]
          constructor
          · intro hcl
            cases hcl
          · rintro ⟨_, hne, hns⟩
            rcases hcond with h1 | h1
            · exact absurd h1 hne
            · rw [h1] at hns
              cases hns
      · have hb : (body = "" || containsSub body "ERROR") = false := by
          push_neg at hcond
          simp [hcond.1, hcond.2]
        refine ⟨by simp [hb], ?_, ?_, ?_⟩
        · intro code message
          constructor
          · intro hcl
            rw [if_neg (by simp [hb])] at hcl
            cases hcl
          · rintro ⟨_, hsome⟩
            cases hsome
        · intro b
          rw [if_neg (by simp [hb])]
          constructor
          · intro hcl
            cases hcl
          · rintro ⟨_, _, hor⟩
            exact absurd hor hcond
        · rw [if_neg (by simp [hb])]
          push_neg at hcond
          exact ⟨fun _ => ⟨rfl, hcond.1, Bool.eq_false_iff.mpr hcond.2⟩,
            fun _ => rfl⟩

/-- C2: a poll (`captcha`) that receives the remote not-solved-yet
response never raises, for either value of `throwErrors`, and warns
nothing; with the modelled error table the `CAPCHA_NOT_READY` marker in
particular yields an ok captcha with no text, the non-fatal Pending
steady state of the poll loop. -/
theorem C2_pending_never_raises (c : Client) (errors : String → Option String)
    (body : String) (id : Option String) (t : Trace)
    (h : errors body = some notSolvedMsg) :
    (∃ t' cap, captcha c (constEnv body) errors id t = (t', .ok cap) ∧
      t'.warnings = t.warnings) ∧
    (captcha c (constEnv "CAPCHA_NOT_READY") specErrors id t).2 =
      .ok { id := id, text := none, apiResponse := some "CAPCHA_NOT_READY" } := by
  constructor
  · exact ⟨_, _, captcha_quiet c (constEnv body) errors id t (Or.inr h), rfl⟩
  · rw [captcha_quiet c (constEnv "CAPCHA_NOT_READY") specErrors id t
      (Or.inr rfl)]
    rfl

/-- Witness for C2 at the modelled table and its not-solved marker. -/
theorem C2_pending_never_raises_witness :
    specErrors "CAPCHA_NOT_READY" = some notSolvedMsg ∧
    (∃ t' cap,
      captcha throwingClient (constEnv "CAPCHA_NOT_READY") specErrors
        (some "77") {} = (t', .ok cap) ∧ t'.warnings = ({} : Trace).warnings) ∧
    (captcha throwingClient (constEnv "CAPCHA_NOT_READY") specErrors
      (some "77") {}).2 =
      .ok { id := some "77", text := none,
            apiResponse := some "CAPCHA_NOT_READY" } :=
  ⟨rfl, C2_pending_never_raises throwingClient specErrors "CAPCHA_NOT_READY"
    (some "77") {} rfl⟩

/-- C4: for every final poll response accepted as valid, the captcha
returned by the poll operation has text equal to the second
`|`-delimited field of the body; in particular `OK|ABCD1234` yields
text `ABCD1234`, also through a full `decode` run whose final poll
answers that body. -/
theorem C4_solution_second_field (c : Client) (errors : String → Option String)
    (body : String) (id : Option String) (t : Trace)
    (h : validBody errors body) :
    (∃ t', captcha c (constEnv body) errors id t =
      (t', .ok { id := id, text := splitSecond body,
                 apiResponse := some body })) ∧
    splitSecond "OK|ABCD1234" = some "ABCD1234" ∧
    (decode throwingClient solvedEnv specErrors [("base64", .str "QQ==")] 3
      {}).2 =
      .ok (.done (some { id := some "123", text := some "ABCD1234",
                         apiResponse := some "OK|ABCD1234" })) := by
  refine ⟨⟨_, captcha_quiet c (constEnv body) errors id t (Or.inl h)⟩, rfl, ?_⟩
  rfl

/-- Witness for C4 at the body `OK|ABCD1234`. -/
theorem C4_solution_second_field_witness :
    validBody specErrors "OK|ABCD1234" ∧
    (∃ t', captcha throwingClient (constEnv "OK|ABCD1234") specErrors
      (some "1") {} =
      (t', .ok { id := some "1", text := some "ABCD1234",
                 apiResponse := some "OK|ABCD1234" })) :=
  ⟨by decide, by
    have h := (C4_solution_second_field throwingClient specErrors "OK|ABCD1234"
      (some "1") {} (by decide)).1
    rw [(by decide : splitSecond "OK|ABCD1234" = some "ABCD1234")] at h
    exact h⟩

/-- C10: a valid response body with no `|` delimiter gives a submit
result whose captcha id is undefined and a poll result whose text is
undefined; the second-field extraction is total. -/
theorem C10_no_delimiter_total (c : Client) (errors : String → Option String)
    (body : String) (opts : Obj) (id : Option String) (t : Trace)
    (hv : validBody errors body) (hs : splitSecond body = none) :
    (∃ t', upload c (constEnv body) errors opts t =
      (t', .ok { id := none, text := none, apiResponse := none })) ∧
    (∃ t', captcha c (constEnv body) errors id t =
      (t', .ok { id := id, text := none, apiResponse := some body })) := by
  constructor
  · have hq := upload_quiet c (constEnv body) errors opts t (Or.inl hv)
    rw [show (constEnv body).respond (builtRequest c "in" "post"
        (uploadArgs opts)) = body from rfl, hs] at hq
    exact ⟨_, hq⟩
  · have hq := captcha_quiet c (constEnv body) errors id t (Or.inl hv)
    rw [show (constEnv body).respond (builtRequest c "res" "get"
        [("id", jsOfOptStr id), ("action", .str "get")]) = body from rfl,
      hs] at hq
    exact ⟨_, hq⟩

/-- Witness for C10 at the delimiter-free body `OK`. -/
theorem C10_no_delimiter_total_witness :
    validBody specErrors "OK" ∧ splitSecond "OK" = none ∧
    (∃ t', upload warningClient (constEnv "OK") specErrors [] {} =
      (t', .ok { id := none, text := none, apiResponse := none })) ∧
    (∃ t', captcha warningClient (constEnv "OK") specErrors none {} =
      (t', .ok { id := none, text := none, apiResponse := some "OK" })) :=
  ⟨by decide, by decide,
    C10_no_delimiter_total warningClient specErrors "OK" [] none {}
      (by decide) (by decide)⟩

/-- Counterexample to C3 as stated: with `throwErrors = false` and the
remote-error body `ERROR|X` (classified as an unknown remote error),
submit does log warnings, but it returns a Captcha whose id is the
truthy string `X` — not a falsy outcome. -/
theorem C3_counterexample :
    (upload warningClient (constEnv "ERROR|X") specErrors [] {}).2 =
      .ok { id := some "X", text := none, apiResponse := none } ∧
    (upload warningClient (constEnv "ERROR|X") specErrors [] {}).1.warnings =
      ["Unknown 2Captcha error: ERROR|X", "Unknown 2Captcha error: ERROR|X"] ∧
    optTruthy (some "X") = true := by
  decide

/-- C3 as amended: for a body classified as a remote error (other than
the not-solved marker), submit under `throwErrors = true` raises an
error carrying the classification message, and under
`throwErrors = false` logs that message (twice, once per validation
pass) and returns without raising a Captcha whose id is the second
`|`-field of the body — absent, hence falsy, whenever the error body
has no such field. -/
theorem C3_remote_error_submit (c : Client) (errors : String → Option String)
    (body : String) (opts : Obj) (t : Trace)
    (hq : ¬ validBody errors body)
    (hm : errorMessage errors body ≠ notSolvedMsg) :
    (c.throwErrors = true →
      upload c (constEnv body) errors opts t =
        ({ t with requests := t.requests ++
            [builtRequest c "in" "post" (uploadArgs opts)] },
          .error (errorMessage errors body))) ∧
    (c.throwErrors = false →
      upload c (constEnv body) errors opts t =
        ({ t with
            requests := t.requests ++
              [builtRequest c "in" "post" (uploadArgs opts)],
            warnings := t.warnings ++
              [errorMessage errors body, errorMessage errors body] },
          .ok { id := splitSecond body, text := none, apiResponse := none })) := by
  have hresp : (constEnv body).respond (builtRequest c "in" "post"
      (uploadArgs opts)) = body := rfl
  constructor
  · intro hc
    have hr := request_invalid_throw c (constEnv body) errors "in" "post"
      (uploadArgs opts) t (by rw [hresp]; exact hq) (by rw [hresp]; exact hm) hc
    rw [hresp] at hr
    unfold upload
    simp only [M_bind_apply, hr]
  · intro hc
    have hr := request_invalid_warn c (constEnv body) errors "in" "post"
      (uploadArgs opts) t (by rw [hresp]; exact hq) (by rw [hresp]; exact hm) hc
    rw [hresp] at hr
    unfold upload
    simp only [M_bind_apply, hr]
    rw [validateResponse_invalid c errors body hq, throwErrorM_warn c _ _ hm hc]
    simp

/-- Witness for the amended C3 at the unknown-error body `ERROR_BAD`,
in both configurations. -/
theorem C3_remote_error_submit_witness :
    (upload throwingClient (constEnv "ERROR_BAD") specErrors [] {}).2 =
      .error "Unknown 2Captcha error: ERROR_BAD" ∧
    (upload warningClient (constEnv "ERROR_BAD") specErrors [] {}).1.warnings =
      ["Unknown 2Captcha error: ERROR_BAD", "Unknown 2Captcha error: ERROR_BAD"] := by
  have h1 := (C3_remote_error_submit throwingClient specErrors "ERROR_BAD" []
    {} (by decide) (by decide)).1 rfl
  have h2 := (C3_remote_error_submit warningClient specErrors "ERROR_BAD" []
    {} (by decide) (by decide)).2 rfl
  rw [h1, h2]
  exact ⟨rfl, rfl⟩

/-- Counterexample to C8 as stated: under `throwErrors = true` a body
classified as a remote error makes `report` raise rather than yield
false. -/
theorem C8_counterexample :
    (report throwingClient (constEnv "ERROR_FOO") specErrors "id1" true {}).2 =
      .error "Unknown 2Captcha error: ERROR_FOO" := by
  decide

/-- C8 as amended: every value `report` returns equals the test
`body = OK_REPORT_RECORDED`; with `throwErrors = false` it always
returns that boolean (false for every non-marker body, classified
errors included), and a valid body returns it in every configuration —
but a classified error body can raise instead when throwing is enabled. -/
theorem C8_report_marker (c : Client) (errors : String → Option String)
    (body captchaId : String) (bad : Bool) (t : Trace) :
    (∀ t' b, report c (constEnv body) errors captchaId bad t = (t', .ok b) →
      b = decide (body = "OK_REPORT_RECORDED")) ∧
    (c.throwErrors = false → ∃ t',
      report c (constEnv body) errors captchaId bad t =
        (t', .ok (decide (body = "OK_REPORT_RECORDED")))) ∧
    (validBody errors body → ∃ t',
      report c (constEnv body) errors captchaId bad t =
        (t', .ok (decide (body = "OK_REPORT_RECORDED")))) := by
  have hresp : (constEnv body).respond (builtRequest c "res" "get"
      [("action", .str (if bad then "reportbad" else "reportgood")),
       ("id", .str captchaId)]) = body := rfl
  have hrun := request_run c (constEnv body) errors "res" "get"
    [("action", .str (if bad then "reportbad" else "reportgood")),
     ("id", .str captchaId)] t
  rw [hresp] at hrun
  refine ⟨?_, ?_, ?_⟩
  · intro t' b hb
    unfold report at hb
    rw [M_bind_apply, hrun] at hb
    rcases hv : validateResponse c errors body { t with requests := t.requests ++
        [builtRequest c "res" "get"
          [("action", .str (if bad then "reportbad" else "reportgood")),
           ("id", .str captchaId)]] } with ⟨t2, r⟩
    rw [hv] at hb
    cases r with
    | ok a =>
        simp only [M_pure_apply] at hb
        simp only [Prod.mk.injEq, Except.ok.injEq] at hb
        exact hb.2.symm
    | error e => simp at hb
  · intro hc
    unfold report
    rw [M_bind_apply, hrun]
    by_cases hvb : validBody errors body
    · rw [validateResponse_valid c errors body hvb]
      exact ⟨_, rfl⟩
    · rw [validateResponse_invalid c errors body hvb]
      by_cases hm : errorMessage errors body = notSolvedMsg
      · rw [hm, throwErrorM_not_solved]
        exact ⟨_, rfl⟩
      · rw [throwErrorM_warn c _ _ hm hc]
        exact ⟨_, rfl⟩
  · intro hvb
    unfold report
    rw [M_bind_apply, hrun, validateResponse_valid c errors body hvb]
    exact ⟨_, rfl⟩

/-- Witness for the amended C8: the marker body returns true even when
throwing, and a classified error body returns false when not throwing. -/
theorem C8_report_marker_witness :
    (∃ t', report throwingClient (constEnv "OK_REPORT_RECORDED") specErrors
      "id1" true {} = (t', .ok true)) ∧
    (∃ t', report warningClient (constEnv "ERROR_FOO") specErrors
      "id1" true {} = (t', .ok false)) := by
  have h1 := (C8_report_marker throwingClient specErrors "OK_REPORT_RECORDED"
    "id1" true {}).2.2 (by decide)
  have h2 := (C8_report_marker warningClient specErrors "ERROR_FOO"
    "id1" true {}).2.1 rfl
  rw [(by decide : decide (("OK_REPORT_RECORDED" : String) =
    "OK_REPORT_RECORDED") = true)] at h1
  rw [(by decide : decide (("ERROR_FOO" : String) =
    "OK_REPORT_RECORDED") = false)] at h2
  exact ⟨h1, h2⟩

/-- Counterexample to C1 as stated: a missing (undefined) `googlekey`
passes the empty-string validation even with `throwErrors = true`, and
with `throwErrors = false` an empty `googlekey` merely logs a warning —
in both scenarios the submission request is still sent, so the call
neither fails with a validation condition nor performs zero network
calls. -/
theorem C1_counterexample :
    (decodeRecaptchaV2 throwingClient (constEnv "OK|1") specErrors [] 0
      {}).1.requests.length = 1 ∧
    (decodeRecaptchaV2 throwingClient (constEnv "OK|1") specErrors [] 0
      {}).2 = .ok .fuelOut ∧
    (decodeRecaptchaV2 warningClient (constEnv "OK|1") specErrors
      [("googlekey", .str "")] 0 {}).1.requests.length = 1 ∧
    (decodeRecaptchaV2 warningClient (constEnv "OK|1") specErrors
      [("googlekey", .str "")] 0 {}).1.warnings =
      ["Missing googlekey parameter"] := by
  decide

/-- C1 as amended: with `throwErrors = true`, a required identity field
that is present but equal to the empty string makes the interactive
decode calls raise a missing-parameter validation error before any
network call, and `decode` with no resolvable byte source raises
`No image data received` before any network call; absent (undefined)
fields are not validated, and with `throwErrors = false` the calls only
warn and proceed to the network. -/
theorem C1_empty_field_validation :
    (∀ (c : Client) (env : Env) (errors : String → Option String) (opts : Obj)
      (fuel : Nat) (t : Trace), c.throwErrors = true →
      (objGet opts "googlekey" = .str "" ∨ objGet opts "pageurl" = .str "") →
      ∃ m, decodeRecaptchaV2 c env errors opts fuel t = (t, .error m) ∧
        (m = "Missing googlekey parameter" ∨ m = "Missing pageurl parameter")) ∧
    (∀ (c : Client) (env : Env) (errors : String → Option String) (opts : Obj)
      (fuel : Nat) (t : Trace), c.throwErrors = true →
      (objGet opts "googlekey" = .str "" ∨ objGet opts "pageurl" = .str "") →
      ∃ m, decodeRecaptchaV3 c env errors opts fuel t = (t, .error m) ∧
        (m = "Missing googlekey parameter" ∨ m = "Missing pageurl parameter")) ∧
    (∀ (c : Client) (env : Env) (errors : String → Option String) (opts : Obj)
      (fuel : Nat) (t : Trace), c.throwErrors = true →
      (objGet opts "sitekey" = .str "" ∨ objGet opts "pageurl" = .str "") →
      ∃ m, decodeHCaptcha c env errors opts fuel t = (t, .error m) ∧
        (m = "Missing sitekey parameter" ∨ m = "Missing pageurl parameter")) ∧
    (∀ (c : Client) (env : Env) (errors : String → Option String) (opts : Obj)
      (fuel : Nat) (t : Trace) (k : String), c.throwErrors = true →
      c.key = .str k →
      (objGet opts "base64").truthy = false →
      (objGet opts "buffer").truthy = false →
      (objGet opts "path").truthy = false →
      (objGet opts "url").truthy = false →
      decode c env errors opts fuel t = (t, .error "No image data received")) := by
  refine ⟨?_, ?_, ?_, ?_⟩
  · intro c env errors opts fuel t hc hor
    by_cases hgk : objGet opts "googlekey" = .str ""
    · refine ⟨"Missing googlekey parameter", ?_, Or.inl rfl⟩
      unfold decodeRecaptchaV2
      simp only [M_bind_apply, if_pos hgk,
        throwErrorM_throw c "Missing googlekey parameter" t (by decide) hc]
    · rcases hor with hor | hpu
      · exact absurd hor hgk
      · refine ⟨"Missing pageurl parameter", ?_, Or.inr rfl⟩
        unfold decodeRecaptchaV2
        simp only [M_bind_apply, if_neg hgk, M_pure_apply, if_pos hpu,
          throwErrorM_throw c "Missing pageurl parameter" t (by decide) hc]
  · intro c env errors opts fuel t hc hor
    by_cases hgk : objGet opts "googlekey" = .str ""
    · refine ⟨"Missing googlekey parameter", ?_, Or.inl rfl⟩
      unfold decodeRecaptchaV3
      simp only [M_bind_apply, if_pos hgk,
        throwErrorM_throw c "Missing googlekey parameter" t (by decide) hc]
    · rcases hor with hor | hpu
      · exact absurd hor hgk
      · refine ⟨"Missing pageurl parameter", ?_, Or.inr rfl⟩
        unfold decodeRecaptchaV3
        simp only [M_bind_apply, if_neg hgk, M_pure_apply, if_pos hpu,
          throwErrorM_throw c "Missing pageurl parameter" t (by decide) hc]
  · intro c env errors opts fuel t hc hor
    by_cases hsk : objGet opts "sitekey" = .str ""
    · refine ⟨"Missing sitekey parameter", ?_, Or.inl rfl⟩
      unfold decodeHCaptcha
      simp only [M_bind_apply, if_pos hsk,
        throwErrorM_throw c "Missing sitekey parameter" t (by decide) hc]
    · rcases hor with hor | hpu
      · exact absurd hor hsk
      · refine ⟨"Missing pageurl parameter", ?_, Or.inr rfl⟩
        unfold decodeHCaptcha
        simp only [M_bind_apply, if_neg hsk, M_pure_apply, if_pos hpu,
          throwErrorM_throw c "Missing pageurl parameter" t (by decide) hc]
  · intro c env errors opts fuel t k hc hk h1 h2 h3 h4
    unfold decode loadCaptcha
    simp only [M_bind_apply, hk, M_pure_apply, h1, h2, h3, h4,
      Bool.false_eq_true, if_false,
      throwErrorM_throw c "No image data received" t (by decide) hc]

/-- Witness for the amended C1 at concrete clients and options. -/
theorem C1_empty_field_validation_witness :
    (∃ m, decodeRecaptchaV2 throwingClient (constEnv "OK|1") specErrors
      [("googlekey", .str "")] 0 {} = ({}, .error m) ∧
      (m = "Missing googlekey parameter" ∨ m = "Missing pageurl parameter")) ∧
    (∃ m, decodeRecaptchaV3 throwingClient (constEnv "OK|1") specErrors
      [("pageurl", .str "")] 0 {} = ({}, .error m) ∧
      (m = "Missing googlekey parameter" ∨ m = "Missing pageurl parameter")) ∧
    (∃ m, decodeHCaptcha throwingClient (constEnv "OK|1") specErrors
      [("sitekey", .str "")] 0 {} = ({}, .error m) ∧
      (m = "Missing sitekey parameter" ∨ m = "Missing pageurl parameter")) ∧
    decode throwingClient (constEnv "OK|1") specErrors [] 0 {} =
      ({}, .error "No image data received") := by
  obtain ⟨h1, h2, h3, h4⟩ := C1_empty_field_validation
  exact ⟨h1 throwingClient (constEnv "OK|1") specErrors [("googlekey", .str "")]
      0 {} rfl (Or.inl rfl),
    h2 throwingClient (constEnv "OK|1") specErrors [("pageurl", .str "")]
      0 {} rfl (Or.inr rfl),
    h3 throwingClient (constEnv "OK|1") specErrors [("sitekey", .str "")]
      0 {} rfl (Or.inl rfl),
    h4 throwingClient (constEnv "OK|1") specErrors [] 0 {} "k" rfl rfl
      rfl rfl rfl rfl⟩

theorem objGet_objSet_self (o : Obj) (k : String) (v : JsVal) :
    objGet (objSet o k v) k = v := by
  induction o with
  | nil => simp [objSet, objGet]
  | cons p rest ih =>
      by_cases h : p.1 = k
      · simp [objSet, h, objGet]
      · simp [objSet, h, objGet, ih]

theorem objGet_objSet_ne (o : Obj) (k k' : String) (v : JsVal)
    (h : k ≠ k') : objGet (objSet o k v) k' = objGet o k' := by
  induction o with
  | nil => simp [objSet, objGet, h]
  | cons p rest ih =>
      by_cases hp : p.1 = k
      · simp [objSet, hp, objGet, h]
      · simp [objSet, hp, objGet, ih]

theorem objGet_objDelete_ne (o : Obj) (k k' : String) (h : k ≠ k') :
    objGet (objDelete o k) k' = objGet o k' := by
  induction o with
  | nil => rfl
  | cons p rest ih =>
      by_cases hp : p.1 = k
      · have hpk : ¬ p.1 = k' := fun hc => h (hp.symm.trans hc)
        simp [objDelete, hp, objGet, ih, hpk, h]
      · by_cases hk' : p.1 = k'
        · simp [objDelete, hp, hk', objGet, Ne.symm h]
        · simp [objDelete, hp, hk', objGet, ih]

theorem objGet_objSpread_notHas (a b : Obj) (k : String)
    (h : objHas b k = false) : objGet (objSpread a b) k = objGet a k := by
  induction b generalizing a with
  | nil => rfl
  | cons p rest ih =>
      have h1 : ¬ p.1 = k := by
        intro hc
        simp [objHas, hc] at h
      have h2 : objHas rest k = false := by
        simpa [objHas, h1] using h
      show objGet ((p :: rest).foldl (fun acc q => objSet acc q.1 q.2) a) k = _
      rw [List.foldl_cons]
      rw [show (rest.foldl (fun acc q => objSet acc q.1 q.2)
        (objSet a p.1 p.2)) = objSpread (objSet a p.1 p.2) rest from rfl]
      rw [ih (objSet a p.1 p.2) h2, objGet_objSet_ne a p.1 k p.2 h1]

theorem uploadArgs_body (opts : Obj)
    (hb : (objGet opts "base64").truthy = true)
    (hnb : objHas opts "body" = false) :
    objGet (uploadArgs opts) "body" = objGet opts "base64" := by
  unfold uploadArgs
  rw [if_pos hb]
  rw [objGet_objDelete_ne _ _ _ (by decide), objGet_objDelete_ne _ _ _
    (by decide), objGet_objDelete_ne _ _ _ (by decide),
    objGet_objDelete_ne _ _ _ (by decide),
    objGet_objSpread_notHas _ _ _ hnb,
    objGet_objSet_ne _ _ _ _ (by decide)]
  simp [objGet]

theorem builtRequest_payload_body (c : Client) (action method : String)
    (payload : Obj) :
    objGet (builtRequest c action method payload).payload "body" =
      objGet payload "body" := by
  unfold builtRequest
  rw [objGet_objSet_ne _ _ _ _ (by decide), objGet_objSet_ne _ _ _ _ (by decide)]

theorem base64Encode_ne_empty (bytes : List Nat) (h : bytes ≠ []) :
    base64Encode bytes ≠ "" := by
  match bytes with
  | [] => exact absurd rfl h
  | [a] => intro hc; exact List.noConfusion (congrArg String.data hc)
  | [a, b] => intro hc; exact List.noConfusion (congrArg String.data hc)
  | a :: b :: c :: rest => intro hc; exact List.noConfusion (congrArg String.data hc)

theorem validateResponse_pres (c : Client) (errors : String → Option String)
    (body : String) (t : Trace) :
    ((validateResponse c errors body) t).1.requests = t.requests ∧
    ((validateResponse c errors body) t).1.sleeps = t.sleeps := by
  by_cases hv : validBody errors body
  · rw [validateResponse_valid c errors body hv]
    exact ⟨rfl, rfl⟩
  · rw [validateResponse_invalid c errors body hv]
    rcases throwErrorM_run c (errorMessage errors body) t with h | h | h <;>
      rw [h] <;> exact ⟨rfl, rfl⟩

theorem pollLoop_zero (c : Client) (env : Env)
    (errors : String → Option String) (s e : Nat) (cap : Captcha) (t : Trace) :
    pollLoop c env errors s 0 e cap t =
      (t, .ok (if optTruthy cap.text then RunRes.done (some cap)
        else .fuelOut)) := by
  unfold pollLoop
  by_cases h : optTruthy cap.text <;> simp [h]

theorem upload_run (c : Client) (env : Env)
    (errors : String → Option String) (opts : Obj) (t : Trace) :
    ∃ t' r, upload c env errors opts t = (t', r) ∧
      t'.requests = t.requests ++ [builtRequest c "in" "post" (uploadArgs opts)] ∧
      t'.sleeps = t.sleeps := by
  unfold upload
  rw [M_bind_apply, request_run]
  rcases hv : validateResponse c errors
      (env.respond (builtRequest c "in" "post" (uploadArgs opts)))
      { t with requests := t.requests ++
        [builtRequest c "in" "post" (uploadArgs opts)] } with ⟨t2, r2⟩
  have hp := validateResponse_pres c errors
    (env.respond (builtRequest c "in" "post" (uploadArgs opts)))
    { t with requests := t.requests ++
      [builtRequest c "in" "post" (uploadArgs opts)] }
  rw [hv] at hp
  cases r2 with
  | error e => exact ⟨t2, .error e, rfl, hp.1, hp.2⟩
  | ok a =>
      show ∃ t' r,
        (validateResponse c errors
            (env.respond (builtRequest c "in" "post" (uploadArgs opts))) >>=
          fun _ =>
            pure ({ id := splitSecond (env.respond
                            (builtRequest c "in" "post" (uploadArgs opts))),
                    text := none,
                    apiResponse := none } : Captcha)) t2 = (t', r) ∧
        t'.requests = t.requests ++
          [builtRequest c "in" "post" (uploadArgs opts)] ∧
        t'.sleeps = t.sleeps
      rw [M_bind_apply]
      rcases hv2 : validateResponse c errors
          (env.respond (builtRequest c "in" "post" (uploadArgs opts))) t2
        with ⟨t3, r3⟩
      have hp2 := validateResponse_pres c errors
        (env.respond (builtRequest c "in" "post" (uploadArgs opts))) t2
      rw [hv2] at hp2
      cases r3 with
      | error e => exact ⟨t3, .error e, rfl, hp2.1.trans hp.1, hp2.2.trans hp.2⟩
      | ok b =>
          exact ⟨t3, .ok { id := splitSecond (env.respond (builtRequest c "in"
              "post" (uploadArgs opts))), text := none, apiResponse := none },
            rfl, hp2.1.trans hp.1, hp2.2.trans hp.2⟩

theorem decode_run_fuel0 (c : Client) (env : Env)
    (errors : String → Option String) (opts : Obj) (t : Trace) (v : JsVal)
    (k : String) (hk : c.key = .str k)
    (hl : loadCaptcha c env opts t = (t, .ok v)) :
    ((decode c env errors opts 0 t).1).requests =
      t.requests ++ [builtRequest c "in" "post"
        (uploadArgs (objSet opts "base64" v))] := by
  obtain ⟨t', r, hup, hreq, hsl⟩ := upload_run c env errors
    (objSet opts "base64" v) t
  unfold decode
  simp only [M_bind_apply, hk, M_pure_apply, hl, hup]
  cases r with
  | ok cap => simp [pollLoop_zero, hreq]
  | error e => simpa using hreq

/-- C6: submitting an image through a pre-encoded base64 string, a
binary buffer, a file path, or a remote URL puts the same base64 string
in the `body` field of the payload handed to the transport, whenever
the underlying bytes agree. -/
theorem C6_byte_sources_converge (c : Client) (env : Env)
    (errors : String → Option String) (bytes : List Nat) (p u k : String)
    (hk : c.key = .str k) (hbytes : bytes ≠ [])
    (hp : p ≠ "") (hu : u ≠ "")
    (hrf : env.readFile p = bytes) (hfu : env.fetchUrl u = bytes) :
    ((decode c env errors [("base64", .str (base64Encode bytes))] 0
      {}).1.requests.map (fun r => objGet r.payload "body") =
        [.str (base64Encode bytes)]) ∧
    ((decode c env errors [("buffer", .buf bytes)] 0
      {}).1.requests.map (fun r => objGet r.payload "body") =
        [.str (base64Encode bytes)]) ∧
    ((decode c env errors [("path", .str p)] 0
      {}).1.requests.map (fun r => objGet r.payload "body") =
        [.str (base64Encode bytes)]) ∧
    ((decode c env errors [("url", .str u)] 0
      {}).1.requests.map (fun r => objGet r.payload "body") =
        [.str (base64Encode bytes)]) := by
  have hst : (JsVal.str (base64Encode bytes)).truthy = true := by
    simp [JsVal.truthy, base64Encode_ne_empty bytes hbytes]
  have hpt : (JsVal.str p).truthy = true := by simp [JsVal.truthy, hp]
  have hut : (JsVal.str u).truthy = true := by simp [JsVal.truthy, hu]
  have hl1 : loadCaptcha c env [("base64", .str (base64Encode bytes))] {} =
      ({}, .ok (.str (base64Encode bytes))) := by
    unfold loadCaptcha
    rw [if_pos (show (objGet [("base64", .str (base64Encode bytes))]
      "base64").truthy = true from hst)]
    rfl
  have hl2 : loadCaptcha c env [("buffer", .buf bytes)] {} =
      ({}, .ok (.str (base64Encode bytes))) := by
    unfold loadCaptcha
    rw [if_neg (show ¬ ((objGet [("buffer", JsVal.buf bytes)]
          "base64").truthy = true) by simp [objGet, JsVal.truthy]),
      if_pos (show (objGet [("buffer", JsVal.buf bytes)] "buffer").truthy =
        true from rfl)]
    rfl
  have hl3 : loadCaptcha c env [("path", .str p)] {} =
      ({}, .ok (.str (base64Encode bytes))) := by
    unfold loadCaptcha
    rw [if_neg (show ¬ ((objGet [("path", JsVal.str p)]
          "base64").truthy = true) by simp [objGet, JsVal.truthy]),
      if_neg (show ¬ ((objGet [("path", JsVal.str p)]
          "buffer").truthy = true) by simp [objGet, JsVal.truthy]),
      if_pos (show (objGet [("path", JsVal.str p)] "path").truthy =
        true from hpt)]
    show (({} : Trace), Except.ok (JsVal.str (base64Encode (env.readFile p)))) = _
    rw [hrf]
  have hl4 : loadCaptcha c env [("url", .str u)] {} =
      ({}, .ok (.str (base64Encode bytes))) := by
    unfold loadCaptcha
    rw [if_neg (show ¬ ((objGet [("url", JsVal.str u)]
          "base64").truthy = true) by simp [objGet, JsVal.truthy]),
      if_neg (show ¬ ((objGet [("url", JsVal.str u)]
          "buffer").truthy = true) by simp [objGet, JsVal.truthy]),
      if_neg (show ¬ ((objGet [("url", JsVal.str u)]
          "path").truthy = true) by simp [objGet, JsVal.truthy]),
      if_pos (show (objGet [("url", JsVal.str u)] "url").truthy =
        true from hut)]
    show (({} : Trace), Except.ok (JsVal.str (base64Encode (env.fetchUrl u)))) = _
    rw [hfu]
  refine ⟨?_, ?_, ?_, ?_⟩
  · rw [decode_run_fuel0 c env errors _ {} (.str (base64Encode bytes)) k hk hl1]
    simp only [List.nil_append, List.map_cons, List.map_nil]
    rw [builtRequest_payload_body,
      uploadArgs_body (objSet [("base64", JsVal.str (base64Encode bytes))]
        "base64" (JsVal.str (base64Encode bytes))) hst rfl]
    rfl
  · rw [decode_run_fuel0 c env errors _ {} (.str (base64Encode bytes)) k hk hl2]
    simp only [List.nil_append, List.map_cons, List.map_nil]
    rw [builtRequest_payload_body,
      uploadArgs_body (objSet [("buffer", JsVal.buf bytes)]
        "base64" (JsVal.str (base64Encode bytes))) hst rfl]
    rfl
  · rw [decode_run_fuel0 c env errors _ {} (.str (base64Encode bytes)) k hk hl3]
    simp only [List.nil_append, List.map_cons, List.map_nil]
    rw [builtRequest_payload_body,
      uploadArgs_body (objSet [("path", JsVal.str p)]
        "base64" (JsVal.str (base64Encode bytes))) hst rfl]
    rfl
  · rw [decode_run_fuel0 c env errors _ {} (.str (base64Encode bytes)) k hk hl4]
    simp only [List.nil_append, List.map_cons, List.map_nil]
    rw [builtRequest_payload_body,
      uploadArgs_body (objSet [("url", JsVal.str u)]
        "base64" (JsVal.str (base64Encode bytes))) hst rfl]
    rfl

/-- Witness for C6 at the bytes 1, 2, 3 (`AQID` in base64). -/
theorem C6_byte_sources_converge_witness :
    (decode throwingClient bytesEnv specErrors
      [("base64", .str (base64Encode [1, 2, 3]))] 0 {}).1.requests.map
        (fun r => objGet r.payload "body") = [.str (base64Encode [1, 2, 3])] ∧
    (decode throwingClient bytesEnv specErrors
      [("buffer", .buf [1, 2, 3])] 0 {}).1.requests.map
        (fun r => objGet r.payload "body") = [.str (base64Encode [1, 2, 3])] ∧
    (decode throwingClient bytesEnv specErrors
      [("path", .str "a")] 0 {}).1.requests.map
        (fun r => objGet r.payload "body") = [.str (base64Encode [1, 2, 3])] ∧
    (decode throwingClient bytesEnv specErrors
      [("url", .str "b")] 0 {}).1.requests.map
        (fun r => objGet r.payload "body") = [.str (base64Encode [1, 2, 3])] := by
  have h := C6_byte_sources_converge throwingClient bytesEnv specErrors
    [1, 2, 3] "a" "b" "k" rfl (by decide) (by decide) (by decide) rfl rfl
  exact ⟨h.1, h.2.1, h.2.2.1, h.2.2.2⟩

theorem throwErrorM_sleeps (c : Client) (m : String) (t : Trace) :
    ((throwErrorM c m) t).1.sleeps = t.sleeps := by
  rcases throwErrorM_run c m t with h | h | h <;> rw [h]

theorem request_sleeps (c : Client) (env : Env)
    (errors : String → Option String) (action method : String) (payload : Obj)
    (t : Trace) :
    ((request c env errors action method payload) t).1.sleeps = t.sleeps := by
  rw [request_run]
  rcases hv : validateResponse c errors
      (env.respond (builtRequest c action method payload))
      { t with requests := t.requests ++ [builtRequest c action method payload] }
    with ⟨t2, r⟩
  have hp := validateResponse_pres c errors
    (env.respond (builtRequest c action method payload))
    { t with requests := t.requests ++ [builtRequest c action method payload] }
  rw [hv] at hp
  cases r with
  | ok a => exact hp.2
  | error e => exact hp.2

theorem captcha_sleeps (c : Client) (env : Env)
    (errors : String → Option String) (id : Option String) (t : Trace) :
    ((captcha c env errors id) t).1.sleeps = t.sleeps := by
  unfold captcha
  rw [M_bind_apply]
  rcases hr : request c env errors "res" "get"
      [("id", jsOfOptStr id), ("action", .str "get")] t with ⟨t2, r⟩
  have hs := request_sleeps c env errors "res" "get"
    [("id", jsOfOptStr id), ("action", .str "get")] t
  rw [hr] at hs
  cases r with
  | ok a => exact hs
  | error e => exact hs

theorem upload_sleeps (c : Client) (env : Env)
    (errors : String → Option String) (opts : Obj) (t : Trace) :
    ((upload c env errors opts) t).1.sleeps = t.sleeps := by
  obtain ⟨t', r, he, hreq, hsl⟩ := upload_run c env errors opts t
  rw [he]
  exact hsl

theorem pollLoop_sleeps (c : Client) (env : Env)
    (errors : String → Option String) (s : Nat) (fuel : Nat) :
    ∀ (e : Nat) (cap : Captcha) (t : Trace),
      ∀ x ∈ ((pollLoop c env errors s fuel e cap) t).1.sleeps,
        x ∈ t.sleeps ∨ x = s := by
  induction fuel with
  | zero =>
      intro e cap t x hx
      rw [pollLoop_zero] at hx
      exact Or.inl hx
  | succ n ih =>
      intro e cap t x hx
      unfold pollLoop at hx
      by_cases ht : optTruthy cap.text
      · simp only [ht, if_true] at hx
        exact Or.inl hx
      · simp only [ht, Bool.false_eq_true, if_false, M_bind_apply,
          sleepM_apply] at hx
        by_cases htime : c.timeout < e + s
        · rw [if_pos htime] at hx
          rcases throwErrorM_run c "Captcha timeout"
              { t with sleeps := t.sleeps ++ [s] } with h | h | h <;>
            simp only [M_bind_apply, h, M_pure_apply] at hx <;>
            rcases List.mem_append.mp hx with h1 | h1
          · exact Or.inl h1
          · exact Or.inr (List.mem_singleton.mp h1)
          · exact Or.inl h1
          · exact Or.inr (List.mem_singleton.mp h1)
          · exact Or.inl h1
          · exact Or.inr (List.mem_singleton.mp h1)
        · rw [if_neg htime, M_bind_apply] at hx
          rcases hc : captcha c env errors cap.id
              { t with sleeps := t.sleeps ++ [s] } with ⟨t2, r⟩
          have hcs := captcha_sleeps c env errors cap.id
            { t with sleeps := t.sleeps ++ [s] }
          rw [hc] at hcs hx
          cases r with
          | error e2 =>
              rw [hcs] at hx
              rcases List.mem_append.mp hx with h1 | h1
              · exact Or.inl h1
              · exact Or.inr (List.mem_singleton.mp h1)
          | ok cap2 =>
              rcases ih (e + s) cap2 t2 x hx with h1 | h1
              · rw [hcs] at h1
                rcases List.mem_append.mp h1 with h2 | h2
                · exact Or.inl h2
                · exact Or.inr (List.mem_singleton.mp h2)
              · exact Or.inr h1

theorem M_bind_sleeps_only {α β : Type} (x : M α) (f : α → M β) (t : Trace)
    (s : Nat)
    (hx : ∀ u ∈ (x t).1.sleeps, u ∈ t.sleeps ∨ u = s)
    (hf : ∀ a t', ∀ u ∈ (f a t').1.sleeps, u ∈ t'.sleeps ∨ u = s) :
    ∀ u ∈ ((x >>= f) t).1.sleeps, u ∈ t.sleeps ∨ u = s := by
  intro u hu
  rw [M_bind_apply] at hu
  rcases hx' : x t with ⟨t1, r⟩
  have hx1 : ∀ v ∈ t1.sleeps, v ∈ t.sleeps ∨ v = s := by
    intro v hv
    exact hx v (by rw [hx']; exact hv)
  rw [hx'] at hu
  cases r with
  | ok a => exact (hf a t1 u hu).elim (fun h => hx1 u h) Or.inr
  | error e => exact hx1 u hu

theorem guardM_sleeps (c : Client) (m : String) (cond : Prop) [Decidable cond]
    (t : Trace) :
    (((if cond then throwErrorM c m else pure false) : M Bool) t).1.sleeps =
      t.sleeps := by
  by_cases h : cond
  · rw [if_pos h]
    exact throwErrorM_sleeps c m t
  · rw [if_neg h]
    rfl

theorem keyGuard_sleeps (c : Client) (t : Trace) :
    (((match c.key with
      | JsVal.str _ => (pure false : M Bool)
      | _ => throwErrorM c "2Captcha key must be a string")) t).1.sleeps =
      t.sleeps := by
  cases c.key <;> first | rfl | exact throwErrorM_sleeps c _ t

theorem loadCaptcha_sleeps (c : Client) (env : Env) (opts : Obj) (t : Trace) :
    ((loadCaptcha c env opts) t).1.sleeps = t.sleeps := by
  unfold loadCaptcha
  by_cases h1 : (objGet opts "base64").truthy
  · rw [if_pos h1]
    rfl
  · rw [if_neg h1]
    by_cases h2 : (objGet opts "buffer").truthy
    · rw [if_pos h2]
      rfl
    · rw [if_neg h2]
      by_cases h3 : (objGet opts "path").truthy
      · rw [if_pos h3]
        rfl
      · rw [if_neg h3]
        by_cases h4 : (objGet opts "url").truthy
        · rw [if_pos h4]
          rfl
        · rw [if_neg h4, M_bind_apply]
          rcases throwErrorM_run c "No image data received" t with h | h | h <;>
            rw [h] <;> rfl

theorem ifGuard_sleeps_only {β : Type} (c : Client) (m : String)
    (cond : Prop) [Decidable cond] (jp : Bool → M β) (t : Trace) (s : Nat)
    (hjp : ∀ a t', ∀ u ∈ (jp a t').1.sleeps, u ∈ t'.sleeps ∨ u = s) :
    ∀ u ∈ ((if cond then throwErrorM c m >>= jp else pure false >>= jp)
      t).1.sleeps, u ∈ t.sleeps ∨ u = s := by
  by_cases h : cond
  · rw [if_pos h]
    exact M_bind_sleeps_only _ _ _ _
      (fun u hu => Or.inl (by rwa [throwErrorM_sleeps] at hu)) hjp
  · rw [if_neg h]
    exact M_bind_sleeps_only _ _ _ _ (fun u hu => Or.inl hu) hjp

theorem uploadPoll_sleeps_only (c : Client) (env : Env)
    (errors : String → Option String) (uo : Obj) (s fuel : Nat) (t : Trace) :
    ∀ u ∈ ((upload c env errors uo >>=
      fun cap => pollLoop c env errors s fuel 0 cap) t).1.sleeps,
      u ∈ t.sleeps ∨ u = s := by
  apply M_bind_sleeps_only
  · intro u hu
    rw [upload_sleeps] at hu
    exact Or.inl hu
  · intro cap t3
    exact pollLoop_sleeps c env errors s fuel 0 cap t3

theorem decodeRecaptchaV2_sleeps_only (c : Client) (env : Env)
    (errors : String → Option String) (opts : Obj) (fuel : Nat) (t : Trace) :
    ∀ x ∈ ((decodeRecaptchaV2 c env errors opts fuel) t).1.sleeps,
      x ∈ t.sleeps ∨ x = max c.polling 10 := by
  unfold decodeRecaptchaV2
  apply ifGuard_sleeps_only
  intro a t1
  apply ifGuard_sleeps_only
  intro b t2
  apply uploadPoll_sleeps_only

theorem decodeRecaptchaV3_sleeps_only (c : Client) (env : Env)
    (errors : String → Option String) (opts : Obj) (fuel : Nat) (t : Trace) :
    ∀ x ∈ ((decodeRecaptchaV3 c env errors opts fuel) t).1.sleeps,
      x ∈ t.sleeps ∨ x = max c.polling 10 := by
  unfold decodeRecaptchaV3
  apply ifGuard_sleeps_only
  intro a t1
  apply ifGuard_sleeps_only
  intro b t2
  apply uploadPoll_sleeps_only

theorem decodeHCaptcha_sleeps_only (c : Client) (env : Env)
    (errors : String → Option String) (opts : Obj) (fuel : Nat) (t : Trace) :
    ∀ x ∈ ((decodeHCaptcha c env errors opts fuel) t).1.sleeps,
      x ∈ t.sleeps ∨ x = max c.polling 10 := by
  unfold decodeHCaptcha
  apply ifGuard_sleeps_only
  intro a t1
  apply ifGuard_sleeps_only
  intro b t2
  apply uploadPoll_sleeps_only

theorem decode_sleeps_only (c : Client) (env : Env)
    (errors : String → Option String) (opts : Obj) (fuel : Nat) (t : Trace) :
    ∀ x ∈ ((decode c env errors opts fuel) t).1.sleeps,
      x ∈ t.sleeps ∨ x = c.polling := by
  unfold decode
  have hjp : ∀ (a : Bool) (t1 : Trace),
      ∀ u ∈ ((loadCaptcha c env opts >>= fun base64 =>
        upload c env errors (objSet opts "base64" base64) >>= fun cap =>
          pollLoop c env errors c.polling fuel 0 cap) t1).1.sleeps,
        u ∈ t1.sleeps ∨ u = c.polling := by
    intro a t1
    apply M_bind_sleeps_only
    · intro u hu
      rw [loadCaptcha_sleeps] at hu
      exact Or.inl hu
    · intro b t2
      apply uploadPoll_sleeps_only
  cases hk : c.key with
  | str s =>
      apply M_bind_sleeps_only
      · intro u hu
        exact Or.inl hu
      · exact hjp
  | num n =>
      apply M_bind_sleeps_only
      · intro u hu
        rw [throwErrorM_sleeps] at hu
        exact Or.inl hu
      · exact hjp
  | buf b =>
      apply M_bind_sleeps_only
      · intro u hu
        rw [throwErrorM_sleeps] at hu
        exact Or.inl hu
      · exact hjp
  | bool b =>
      apply M_bind_sleeps_only
      · intro u hu
        rw [throwErrorM_sleeps] at hu
        exact Or.inl hu
      · exact hjp
  | undefined =>
      apply M_bind_sleeps_only
      · intro u hu
        rw [throwErrorM_sleeps] at hu
        exact Or.inl hu
      · exact hjp

/-- C7: every sleep performed by the polling loops of the interactive
challenge kinds (reCAPTCHA v2, reCAPTCHA v3, hCaptcha) lasts exactly
`max(polling, 10)` ms — at least the 10 ms floor — while the image
`decode` loop sleeps exactly the configured `polling` interval. -/
theorem C7_polling_floor (c : Client) (env : Env)
    (errors : String → Option String) (opts : Obj) (fuel : Nat) :
    (∀ x ∈ ((decodeRecaptchaV2 c env errors opts fuel) {}).1.sleeps,
      x = max c.polling 10) ∧
    (∀ x ∈ ((decodeRecaptchaV3 c env errors opts fuel) {}).1.sleeps,
      x = max c.polling 10) ∧
    (∀ x ∈ ((decodeHCaptcha c env errors opts fuel) {}).1.sleeps,
      x = max c.polling 10) ∧
    10 ≤ max c.polling 10 ∧
    (∀ x ∈ ((decode c env errors opts fuel) {}).1.sleeps, x = c.polling) := by
  refine ⟨?_, ?_, ?_, Nat.le_max_right _ _, ?_⟩
  · intro x hx
    rcases decodeRecaptchaV2_sleeps_only c env errors opts fuel {} x hx with h | h
    · cases h
    · exact h
  · intro x hx
    rcases decodeRecaptchaV3_sleeps_only c env errors opts fuel {} x hx with h | h
    · cases h
    · exact h
  · intro x hx
    rcases decodeHCaptcha_sleeps_only c env errors opts fuel {} x hx with h | h
    · cases h
    · exact h
  · intro x hx
    rcases decode_sleeps_only c env errors opts fuel {} x hx with h | h
    · cases h
    · exact h

/-- Witness for C7: a concrete v2 run that sleeps once (10 ms floor,
with polling 5) and a concrete image run that sleeps once (5 ms). -/
theorem C7_polling_floor_witness :
    (∀ x ∈ ((decodeRecaptchaV2 slowClient (constEnv "CAPCHA_NOT_READY")
      specErrors [] 1) {}).1.sleeps, x = max 5 10) ∧
    (∀ x ∈ ((decode slowClient (constEnv "CAPCHA_NOT_READY") specErrors
      [("base64", .str "QQ==")] 1) {}).1.sleeps, x = 5) ∧
    ((decodeRecaptchaV2 slowClient (constEnv "CAPCHA_NOT_READY") specErrors
      [] 1) {}).1.sleeps = [10] ∧
    ((decode slowClient (constEnv "CAPCHA_NOT_READY") specErrors
      [("base64", .str "QQ==")] 1) {}).1.sleeps = [5] := by
  have h := C7_polling_floor slowClient (constEnv "CAPCHA_NOT_READY")
    specErrors [] 1
  have h2 := C7_polling_floor slowClient (constEnv "CAPCHA_NOT_READY")
    specErrors [("base64", .str "QQ==")] 1
  exact ⟨h.1, h2.2.2.2.2, by decide, by decide⟩

theorem loadCaptcha_base64 (c : Client) (env : Env) (opts : Obj) (t : Trace)
    (hb : (objGet opts "base64").truthy = true) :
    loadCaptcha c env opts t = (t, .ok (objGet opts "base64")) := by
  unfold loadCaptcha
  rw [if_pos hb]
  rfl

theorem timeout_bound (T s : Nat) (hs : 0 < s) : T < (T / s + 1) * s := by
  have h2 : T % s < s := Nat.mod_lt T hs
  calc T = s * (T / s) + T % s := (Nat.div_add_mod T s).symm
    _ < s * (T / s) + s := by omega
    _ = (T / s + 1) * s := by ring

theorem pollLoop_pending_timeout (c : Client)
    (errors : String → Option String) (body : String) (s : Nat)
    (hq : errors body = some notSolvedMsg)
    (hpend : optTruthy (splitSecond body) = false) :
    ∀ (fuel e : Nat) (cap : Captcha) (t : Trace),
      optTruthy cap.text = false →
      c.timeout < e + (fuel + 1) * s →
      (c.throwErrors = true →
        ∃ t', pollLoop c (constEnv body) errors s (fuel + 1) e cap t =
          (t', .error "Captcha timeout") ∧ t'.warnings = t.warnings) ∧
      (c.throwErrors = false →
        ∃ t', pollLoop c (constEnv body) errors s (fuel + 1) e cap t =
          (t', .ok (.done none)) ∧ "Captcha timeout" ∈ t'.warnings) := by
  intro fuel
  induction fuel with
  | zero =>
      intro e cap t htext harith
      have htime : c.timeout < e + s := by
        have : (0 + 1) * s = s := by ring
        omega
      unfold pollLoop
      simp only [htext, Bool.false_eq_true, if_false, M_bind_apply,
        sleepM_apply]
      rw [if_pos htime]
      constructor
      · intro hc
        rw [M_bind_apply, throwErrorM_throw c _ _ (by decide) hc]
        exact ⟨_, rfl, rfl⟩
      · intro hc
        rw [M_bind_apply, throwErrorM_warn c _ _ (by decide) hc]
        refine ⟨_, rfl, ?_⟩
        simp
  | succ n ih =>
      intro e cap t htext harith
      unfold pollLoop
      simp only [htext, Bool.false_eq_true, if_false, M_bind_apply,
        sleepM_apply]
      by_cases htime : c.timeout < e + s
      · rw [if_pos htime]
        constructor
        · intro hc
          rw [M_bind_apply, throwErrorM_throw c _ _ (by decide) hc]
          exact ⟨_, rfl, rfl⟩
        · intro hc
          rw [M_bind_apply, throwErrorM_warn c _ _ (by decide) hc]
          refine ⟨_, rfl, ?_⟩
          simp
      · rw [if_neg htime, M_bind_apply,
          captcha_quiet c (constEnv body) errors cap.id
            { t with sleeps := t.sleeps ++ [s] } (Or.inr hq)]
        have harith2 : c.timeout < (e + s) + (n + 1) * s := by
          have : e + (n + 1 + 1) * s = (e + s) + (n + 1) * s := by ring
          omega
        obtain ⟨hthrow, hwarn⟩ := ih (e + s)
          { id := cap.id,
            apiResponse := some ((constEnv body).respond (builtRequest c "res"
              "get" [("id", jsOfOptStr cap.id), ("action", .str "get")])),
            text := splitSecond ((constEnv body).respond (builtRequest c "res"
              "get" [("id", jsOfOptStr cap.id), ("action", .str "get")])) }
          { t with sleeps := t.sleeps ++ [s],
                   requests := t.requests ++ [builtRequest c "res" "get"
                     [("id", jsOfOptStr cap.id), ("action", .str "get")]] }
          hpend harith2
        constructor
        · intro hc
          obtain ⟨t', heq, hwn⟩ := hthrow hc
          exact ⟨t', heq, hwn⟩
        · intro hc
          obtain ⟨t', heq, hwn⟩ := hwarn hc
          exact ⟨t', heq, hwn⟩

/-- C5: with an always-pending poll environment, both the image decode
loop (for a positive polling interval) and the reCAPTCHA v2 loop
terminate within `timeout / sleep + 1` polling iterations and surface
the timeout outcome: a `Captcha timeout` error when throwing, or a
logged `Captcha timeout` warning and an undefined result when not; the
timeout check runs once per iteration, after the sleep. -/
theorem C5_pending_poll_times_out (c : Client)
    (errors : String → Option String) (body : String) (opts : Obj) (k : String)
    (hk : c.key = .str k)
    (hq : errors body = some notSolvedMsg)
    (hpend : optTruthy (splitSecond body) = false)
    (hb64 : (objGet opts "base64").truthy = true)
    (hpoll : 0 < c.polling)
    (hgk : ¬ objGet opts "googlekey" = .str "")
    (hpu : ¬ objGet opts "pageurl" = .str "") :
    (c.throwErrors = true →
      ∃ t', decode c (constEnv body) errors opts (c.timeout / c.polling + 1)
        {} = (t', .error "Captcha timeout")) ∧
    (c.throwErrors = false →
      ∃ t', decode c (constEnv body) errors opts (c.timeout / c.polling + 1)
        {} = (t', .ok (.done none)) ∧ "Captcha timeout" ∈ t'.warnings) ∧
    (c.throwErrors = true →
      ∃ t', decodeRecaptchaV2 c (constEnv body) errors opts
        (c.timeout / max c.polling 10 + 1) {} =
          (t', .error "Captcha timeout")) ∧
    (c.throwErrors = false →
      ∃ t', decodeRecaptchaV2 c (constEnv body) errors opts
        (c.timeout / max c.polling 10 + 1) {} =
          (t', .ok (.done none)) ∧ "Captcha timeout" ∈ t'.warnings) := by
  have hmax : 0 < max c.polling 10 :=
    Nat.lt_of_lt_of_le (by decide) (Nat.le_max_right c.polling 10)
  have hdec : decode c (constEnv body) errors opts (c.timeout / c.polling + 1)
      {} =
      pollLoop c (constEnv body) errors c.polling (c.timeout / c.polling + 1) 0
        { id := splitSecond body, text := none, apiResponse := none }
        { requests := [builtRequest c "in" "post"
            (uploadArgs (objSet opts "base64" (objGet opts "base64")))],
          warnings := [], sleeps := [] } := by
    unfold decode
    simp only [hk, M_bind_apply, M_pure_apply,
      loadCaptcha_base64 c (constEnv body) opts {} hb64,
      upload_quiet c (constEnv body) errors
        (objSet opts "base64" (objGet opts "base64")) {} (Or.inr hq)]
    rfl
  have hdecV2 : decodeRecaptchaV2 c (constEnv body) errors opts
      (c.timeout / max c.polling 10 + 1) {} =
      pollLoop c (constEnv body) errors (max c.polling 10)
        (c.timeout / max c.polling 10 + 1) 0
        { id := splitSecond body, text := none, apiResponse := none }
        { requests := [builtRequest c "in" "post" (uploadArgs
            [("method", .str "userrecaptcha"),
             ("googlekey", objGet opts "googlekey"),
             ("pageurl", objGet opts "pageurl"),
             ("invisible", .num (if (objGet opts "invisible").truthy then 1
               else 0)),
             ("enterprise", .num (if (objGet opts "enterprise").truthy then 1
               else 0))])],
          warnings := [], sleeps := [] } := by
    unfold decodeRecaptchaV2
    rw [if_neg hgk]
    simp only [M_bind_apply, M_pure_apply]
    rw [if_neg hpu]
    simp only [M_bind_apply, M_pure_apply,
      upload_quiet c (constEnv body) errors
        [("method", .str "userrecaptcha"),
         ("googlekey", objGet opts "googlekey"),
         ("pageurl", objGet opts "pageurl"),
         ("invisible", .num (if (objGet opts "invisible").truthy then 1
           else 0)),
         ("enterprise", .num (if (objGet opts "enterprise").truthy then 1
           else 0))] {} (Or.inr hq)]
    rfl
  have hloop := pollLoop_pending_timeout c errors body c.polling hq hpend
    (c.timeout / c.polling) 0
    { id := splitSecond body, text := none, apiResponse := none }
    { requests := [builtRequest c "in" "post"
        (uploadArgs (objSet opts "base64" (objGet opts "base64")))],
      warnings := [], sleeps := [] }
    rfl (by simpa using timeout_bound c.timeout c.polling hpoll)
  have hloopV2 := pollLoop_pending_timeout c errors body (max c.polling 10) hq
    hpend (c.timeout / max c.polling 10) 0
    { id := splitSecond body, text := none, apiResponse := none }
    { requests := [builtRequest c "in" "post" (uploadArgs
        [("method", .str "userrecaptcha"),
         ("googlekey", objGet opts "googlekey"),
         ("pageurl", objGet opts "pageurl"),
         ("invisible", .num (if (objGet opts "invisible").truthy then 1
           else 0)),
         ("enterprise", .num (if (objGet opts "enterprise").truthy then 1
           else 0))])],
      warnings := [], sleeps := [] }
    rfl (by simpa using timeout_bound c.timeout (max c.polling 10) hmax)
  refine ⟨?_, ?_, ?_, ?_⟩
  · intro hc
    obtain ⟨t', heq, _⟩ := hloop.1 hc
    exact ⟨t', hdec.trans heq⟩
  · intro hc
    obtain ⟨t', heq, hwn⟩ := hloop.2 hc
    exact ⟨t', hdec.trans heq, hwn⟩
  · intro hc
    obtain ⟨t', heq, _⟩ := hloopV2.1 hc
    exact ⟨t', hdecV2.trans heq⟩
  · intro hc
    obtain ⟨t', heq, hwn⟩ := hloopV2.2 hc
    exact ⟨t', hdecV2.trans heq, hwn⟩

/-- Witness for C5 at a 50 ms timeout, 5000 ms polling, and the
modelled pending marker, in both configurations. -/
theorem C5_pending_poll_times_out_witness :
    (∃ t', decode shortTimeoutThrow (constEnv "CAPCHA_NOT_READY") specErrors
      [("base64", .str "QQ==")] (50 / 5000 + 1) {} =
        (t', .error "Captcha timeout")) ∧
    (∃ t', decode shortTimeoutWarn (constEnv "CAPCHA_NOT_READY") specErrors
      [("base64", .str "QQ==")] (50 / 5000 + 1) {} =
        (t', .ok (.done none)) ∧ "Captcha timeout" ∈ t'.warnings) := by
  have h1 := (C5_pending_poll_times_out shortTimeoutThrow specErrors
    "CAPCHA_NOT_READY" [("base64", .str "QQ==")] "k" rfl rfl (by decide)
    (by decide) (by decide) (by decide) (by decide)).1 rfl
  have h2 := (C5_pending_poll_times_out shortTimeoutWarn specErrors
    "CAPCHA_NOT_READY" [("base64", .str "QQ==")] "k" rfl rfl (by decide)
    (by decide) (by decide) (by decide) (by decide)).2.1 rfl
  exact ⟨h1, h2⟩

end RuCaptcha
